import Mathlib

/-!
Verification of the average-test-doubles repository: a statistics engine
(mean, median, mode), a Number Source abstraction (`NumberProvider`), the
`Average` report facade, and the test doubles defined in the test suite
(fake file system, stubs, mock, counting wrapper).

Numbers are modelled as exact rationals; the IEEE not-a-number sentinel is
modelled as the `none` value of `Option Rat`, so mean and median have type
`List Rat -> Option Rat`. Promise rejection is modelled with `Except String`
paired with explicit state passing. Array aliasing questions are modelled
separately with an explicit heap of arrays addressed by natural-number
references.
-/

/-- Ascending sort used by the statistics engine: sort a copy of the list
ascending. In the pure embedding the original list is untouched. -/
def sortAsc (xs : List ℚ) : List ℚ :=
  xs.insertionSort (· ≤ ·)

/-- Modelled from the spec: `statistics.ts` is not under `src/`. Section 4.2
defines `mean(xs)` as sum(xs) / count(xs), which is the not-a-number sentinel
(0 / 0) when the sequence is empty; here not-a-number is `none`. -/
def mean (xs : List ℚ) : Option ℚ :=
  if xs.length = 0 then none else some (xs.sum / xs.length)

/-- Modelled from the spec: `statistics.ts` is not under `src/`. Section 4.2
defines `median(xs)`: sort a copy of xs ascending; if the count is odd return
the middle element; if even return the arithmetic mean of the two central
elements; on the empty sequence the result is not-a-number (`none`). -/
def median (xs : List ℚ) : Option ℚ :=
  let s := sortAsc xs
  let n := s.length
  if n = 0 then none
  else if n % 2 = 1 then some (s.getD (n / 2) 0)
  else some ((s.getD (n / 2 - 1) 0 + s.getD (n / 2) 0) / 2)

/-- The maximum occurrence count over the distinct values of `xs`
(0 when `xs` is empty). -/
def maxCount (xs : List ℚ) : ℕ :=
  (xs.dedup.map (fun v => xs.count v)).foldr max 0

/-- Modelled from the spec: `statistics.ts` is not under `src/`. Section 4.2
defines `mode(xs)`: count occurrences of each distinct value; let m be the
maximum occurrence count (0 if xs is empty, producing an empty mode set);
return every distinct value whose occurrence count equals m, sorted
ascending. -/
def mode (xs : List ℚ) : List ℚ :=
  sortAsc (xs.dedup.filter (fun v => xs.count v = maxCount xs))

/-- The Number Source capability (`NumberProvider` interface): one fetch
operation over an explicit implementation state; a rejected promise is an
`Except.error` carrying the message string. -/
structure NumberProvider (σ : Type) where
  readNumbers : σ → σ × Except String (List ℚ)

/-- `Average.computeMeanOfFile`: fetch the numbers from the provider once,
then apply `mean`; a fetch failure is propagated unchanged. -/
def computeMeanOfFile {σ : Type} (p : NumberProvider σ) (s : σ) :
    σ × Except String (Option ℚ) :=
  let res := p.readNumbers s
  (res.1, res.2.map mean)

/-- `Average.computeMedianOfFile`: fetch once, apply `median`. -/
def computeMedianOfFile {σ : Type} (p : NumberProvider σ) (s : σ) :
    σ × Except String (Option ℚ) :=
  let res := p.readNumbers s
  (res.1, res.2.map median)

/-- `Average.computeModeOfFile`: fetch once, apply `mode`. -/
def computeModeOfFile {σ : Type} (p : NumberProvider σ) (s : σ) :
    σ × Except String (List ℚ) :=
  let res := p.readNumbers s
  (res.1, res.2.map mode)

/-- `ConfigurableStubNumberProvider`: its state is the stubbed list, resolved
as-is on every fetch. -/
def ConfigurableStubNumberProvider : NumberProvider (List ℚ) :=
  ⟨fun ns => (ns, Except.ok ns)⟩

/-- `SimpleMockNumberProvider`: state is the call counter; every fetch
increments it and resolves with the fixed list [5, 10, 15, 20, 25]. -/
def SimpleMockNumberProvider : NumberProvider ℕ :=
  ⟨fun n => (n + 1, Except.ok [5, 10, 15, 20, 25])⟩

/-- Call-counting instrumentation: wrap any provider and count its fetches,
as the mock and spy doubles of the test suite do. -/
def countingProvider {σ : Type} (p : NumberProvider σ) :
    NumberProvider (σ × ℕ) :=
  ⟨fun sn => (((p.readNumbers sn.1).1, sn.2 + 1), (p.readNumbers sn.1).2)⟩

/-- Association-list lookup modelling `Map.get` (and `Map.has` via
`Option.isSome`). -/
def getVal (m : List (String × List ℚ)) (k : String) : Option (List ℚ) :=
  match m with
  | [] => none
  | (k2, v) :: rest => if k2 = k then some v else getVal rest k

/-- Association-list update modelling `Map.set`: replace the value when the
key is present, append a new entry otherwise. -/
def setVal (m : List (String × List ℚ)) (k : String) (v : List ℚ) :
    List (String × List ℚ) :=
  match m with
  | [] => [(k, v)]
  | (k2, v2) :: rest => if k2 = k then (k, v) :: rest else (k2, v2) :: setVal rest k v

/-- State of `FakeFileSystemNumberProvider`: the fake file map and the
current path. -/
structure FakeFS where
  fileSystem : List (String × List ℚ)
  currentPath : String

/-- `FakeFileSystemNumberProvider.addFile`: store a copy of the numbers under
the path. -/
def FakeFS.addFile (st : FakeFS) (path : String) (numbers : List ℚ) : FakeFS :=
  { st with fileSystem := setVal st.fileSystem path numbers }

/-- `FakeFileSystemNumberProvider.setCurrentPath`. -/
def FakeFS.setCurrentPath (st : FakeFS) (path : String) : FakeFS :=
  { st with currentPath := path }

/-- A freshly constructed `FakeFileSystemNumberProvider`: empty current path
and the three files added by the constructor. -/
def freshFakeFS : FakeFS :=
  (((FakeFS.mk [] "").addFile "/path/to/an/empty/file" []).addFile
      "/path/to/some/other/file" [1, 2, 3, 4, 5]).addFile
    "C:\\test-data\\third-file.txt" [7, 34, 2]

/-- `FakeFileSystemNumberProvider.readNumbers`: reject with
"File not found: <currentPath>" when the current path is not a key of the
map, otherwise resolve with the stored numbers. -/
def FakeFS.readNumbers (st : FakeFS) : FakeFS × Except String (List ℚ) :=
  match getVal st.fileSystem st.currentPath with
  | none => (st, Except.error ("File not found: " ++ st.currentPath))
  | some ns => (st, Except.ok ns)

/-- The fake file system as a `NumberProvider`. -/
def fakeFSProvider : NumberProvider FakeFS :=
  ⟨FakeFS.readNumbers⟩

/-- State of `MockNumberProvider`: the stubbed numbers, the recorded call
count and the expected call count fixed at construction. -/
structure MockState where
  numbers : List ℚ
  callCount : ℕ
  expectedCalls : ℕ

/-- `MockNumberProvider.readNumbers`: increment the call counter and resolve
with the stored numbers. -/
def MockNumberProvider : NumberProvider MockState :=
  ⟨fun st => ({ st with callCount := st.callCount + 1 }, Except.ok st.numbers)⟩

/-- `MockNumberProvider.verify`: throw when the recorded call count differs
from the expected one, return normally otherwise; the method only reads the
two counters, so the state component is returned unchanged. -/
def MockState.verify (st : MockState) : MockState × Except String Unit :=
  if st.callCount ≠ st.expectedCalls then
    (st, Except.error ("Expected " ++ toString st.expectedCalls ++
      " calls, but got " ++ toString st.callCount))
  else (st, Except.ok ())

/-!
Heap model for the aliasing contract: a heap is a store of arrays, a
reference is an index into it. A fetch takes the heap and returns the
(possibly updated) heap together with a reference to the returned array.
-/

/-- A store of arrays addressed by position. -/
abbrev Heap : Type := List (List ℚ)

/-- Allocate a new array at the end of the heap and return its reference. -/
def Heap.allocRef (h : Heap) (v : List ℚ) : Heap × ℕ :=
  (h ++ [v], h.length)

/-- Read the array a reference points to. -/
def Heap.readRef (h : Heap) (r : ℕ) : List ℚ :=
  h.getD r []

/-- Overwrite the array a reference points to (a caller mutating a received
array in place). -/
def Heap.writeRef (h : Heap) (r : ℕ) (v : List ℚ) : Heap :=
  h.set r v

/-- `ConfigurableStubNumberProvider.readNumbers` in the heap model: the
source code resolves with `this.stubbedNumbers` itself, so the fetch returns
the internal reference `r` without copying. -/
def configurableStubFetch (r : ℕ) (h : Heap) : Heap × ℕ :=
  (h, r)

/-- The copying fetch pattern `Promise.resolve([...numbers])` used by the
fake file system, simple fake, mock and spy providers: allocate a fresh
array holding the same values as the internal array `r`. -/
def copyingFetch (r : ℕ) (h : Heap) : Heap × ℕ :=
  Heap.allocRef h (Heap.readRef h r)

/-! Helper lemmas. -/

theorem mem_le_foldr_max (a : ℕ) (l : List ℕ) (h : a ∈ l) :
    a ≤ l.foldr max 0 := by
  induction l with
  | nil => cases h
  | cons b t ih =>
      rcases List.mem_cons.mp h with rfl | ht
      · exact le_max_left _ _
      · exact le_trans (ih ht) (le_max_right _ _)

theorem foldr_max_mem (l : List ℕ) (h : l ≠ []) : l.foldr max 0 ∈ l := by
  induction l with
  | nil => exact absurd rfl h
  | cons b t ih =>
      cases t with
      | nil => simp
      | cons c u =>
          have hfold : (b :: c :: u).foldr max 0 = max b ((c :: u).foldr max 0) := rfl
          rcases max_choice b ((c :: u).foldr max 0) with hm | hm
          · rw [hfold, hm]
            exact List.mem_cons_self _ _
          · rw [hfold, hm]
            exact List.mem_cons.mpr (Or.inr (ih (by simp)))

theorem count_le_maxCount (xs : List ℚ) (v : ℚ) (h : v ∈ xs) :
    xs.count v ≤ maxCount xs :=
  mem_le_foldr_max _ _ (List.mem_map.mpr ⟨v, List.mem_dedup.mpr h, rfl⟩)

theorem maxCount_attained (xs : List ℚ) (h : xs ≠ []) :
    ∃ v ∈ xs, xs.count v = maxCount xs := by
  have hd : xs.dedup ≠ [] := by
    simpa [List.dedup_eq_nil] using h
  have hm : maxCount xs ∈ xs.dedup.map (fun v => xs.count v) :=
    foldr_max_mem _ (by simpa using hd)
  rcases List.mem_map.mp hm with ⟨v, hv, hc⟩
  exact ⟨v, List.mem_dedup.mp hv, hc⟩

theorem mem_mode_iff (xs : List ℚ) (v : ℚ) :
    v ∈ mode xs ↔ v ∈ xs ∧ xs.count v = maxCount xs := by
  unfold mode sortAsc
  rw [(List.perm_insertionSort _ _).mem_iff, List.mem_filter]
  simp [List.mem_dedup]

theorem sortAsc_eq_of_sorted_perm (xs s : List ℚ) (hp : s.Perm xs)
    (hs : s.Sorted (· ≤ ·)) : sortAsc xs = s :=
  List.eq_of_perm_of_sorted ((List.perm_insertionSort _ xs).trans hp.symm)
    (List.sorted_insertionSort _ xs) hs

/-! Theorems for the claims. -/

/-- C1: `mode(xs)` contains exactly the distinct values whose occurrence
count equals the maximum occurrence count `maxCount xs`; it is sorted
ascending and duplicate-free; the maximum count is a genuine attained
maximum, is 0 on the empty list (giving an empty mode), and when every
distinct value occurs exactly once the mode contains every distinct
value. -/
theorem mode_characterization (xs : List ℚ) :
    (mode xs).Sorted (· ≤ ·) ∧
    (mode xs).Nodup ∧
    (∀ v, v ∈ mode xs ↔ v ∈ xs ∧ xs.count v = maxCount xs) ∧
    (∀ v ∈ xs, xs.count v ≤ maxCount xs) ∧
    (xs ≠ [] → ∃ v ∈ xs, xs.count v = maxCount xs) ∧
    (xs = [] → maxCount xs = 0 ∧ mode xs = []) ∧
    ((∀ v ∈ xs, xs.count v = 1) → ∀ v, v ∈ mode xs ↔ v ∈ xs) := by
  refine ⟨List.sorted_insertionSort _ _, ?_, mem_mode_iff xs, count_le_maxCount xs,
    maxCount_attained xs, ?_, ?_⟩
  · exact ((List.perm_insertionSort _ _).nodup_iff).mpr
      (xs.nodup_dedup.filter _)
  · rintro rfl
    exact ⟨rfl, rfl⟩
  · intro huni v
    rw [mem_mode_iff]
    constructor
    · exact fun hv => hv.1
    · intro hv
      refine ⟨hv, ?_⟩
      rcases maxCount_attained xs (List.ne_nil_of_mem hv) with ⟨w, hw, hcw⟩
      rw [huni v hv, ← hcw, huni w hw]

/-- C2: on the empty sequence, mean and median are the not-a-number sentinel
(`none`) and mode is the empty sequence; the facade operations on a stub
resolving the empty list return these values as ordinary results
(`Except.ok`), not as an error. -/
theorem empty_input_defined_outputs :
    mean [] = none ∧ median [] = none ∧ mode [] = [] ∧
    computeMeanOfFile ConfigurableStubNumberProvider [] = ([], Except.ok none) ∧
    computeMedianOfFile ConfigurableStubNumberProvider [] = ([], Except.ok none) ∧
    computeModeOfFile ConfigurableStubNumberProvider [] = ([], Except.ok []) :=
  ⟨rfl, rfl, rfl, rfl, rfl, rfl⟩

/-- C3: for non-empty `xs`, `median xs` is the middle element of the sorted
permutation `s` of `xs` when the count is odd, and the arithmetic mean of
the two central elements of `s` when the count is even. The sorted
permutation of a list is unique, so this holds for any ascending sorted
rearrangement `s`; the embedding is pure, so `xs` itself is unchanged. -/
theorem median_middle (xs s : List ℚ) (hp : s.Perm xs)
    (hs : s.Sorted (· ≤ ·)) (hne : xs ≠ []) :
    median xs =
      if s.length % 2 = 1 then some (s.getD (s.length / 2) 0)
      else some ((s.getD (s.length / 2 - 1) 0 + s.getD (s.length / 2) 0) / 2) := by
  have hsort : sortAsc xs = s := sortAsc_eq_of_sorted_perm xs s hp hs
  have hlen : s.length ≠ 0 := by
    intro h0
    exact hne (by simpa using (hp.symm.length_eq.trans h0))
  simp only [median, hsort]
  rw [if_neg hlen]

/-- C3 witness: the spec scenario [7, 34, 2], whose sorted copy is
[2, 7, 34] with middle element 7. -/
theorem median_middle_witness :
    median [(7 : ℚ), 34, 2] =
      (if ([(2 : ℚ), 7, 34]).length % 2 = 1 then
        some (([(2 : ℚ), 7, 34]).getD (([(2 : ℚ), 7, 34]).length / 2) 0)
      else
        some ((([(2 : ℚ), 7, 34]).getD (([(2 : ℚ), 7, 34]).length / 2 - 1) 0 +
          ([(2 : ℚ), 7, 34]).getD (([(2 : ℚ), 7, 34]).length / 2) 0) / 2)) :=
  median_middle [7, 34, 2] [2, 7, 34] (by decide) (by decide) (by decide)

/-- C4: for non-empty `xs`, `mean xs` is exactly the sum divided by the
count (arithmetic is modelled by exact rationals). -/
theorem mean_eq_sum_div_count (xs : List ℚ) (h : xs ≠ []) :
    mean xs = some (xs.sum / xs.length) := by
  have : xs.length ≠ 0 := by simpa using h
  simp [mean, this]

/-- C4 witness: the spec scenario [1, 2, 3, 4, 5], whose mean is 3. -/
theorem mean_eq_sum_div_count_witness :
    ([(1 : ℚ), 2, 3, 4, 5] ≠ []) ∧
    mean [(1 : ℚ), 2, 3, 4, 5] =
      some (([(1 : ℚ), 2, 3, 4, 5]).sum / ([(1 : ℚ), 2, 3, 4, 5]).length) ∧
    mean [(1 : ℚ), 2, 3, 4, 5] = some 3 :=
  ⟨by decide, mean_eq_sum_div_count [1, 2, 3, 4, 5] (by decide), by norm_num [mean]⟩

/-- C5: wrapping any provider in the call-counting instrumentation, each of
the three facade operations performs exactly one fetch, and the three
operations in sequence perform exactly three; the concrete
`SimpleMockNumberProvider` counter moves 0 to 1 after one operation and to 3
after the three sequential operations, as in the test suite. -/
theorem facade_one_fetch_per_call (σ : Type) (p : NumberProvider σ)
    (s : σ) (n : ℕ) :
    (computeMeanOfFile (countingProvider p) (s, n)).1.2 = n + 1 ∧
    (computeMedianOfFile (countingProvider p) (s, n)).1.2 = n + 1 ∧
    (computeModeOfFile (countingProvider p) (s, n)).1.2 = n + 1 ∧
    (computeModeOfFile (countingProvider p)
        ((computeMedianOfFile (countingProvider p)
          ((computeMeanOfFile (countingProvider p) (s, n)).1)).1)).1.2 = n + 3 ∧
    (computeMeanOfFile SimpleMockNumberProvider 0).1 = 1 ∧
    (computeModeOfFile SimpleMockNumberProvider
        ((computeMedianOfFile SimpleMockNumberProvider
          ((computeMeanOfFile SimpleMockNumberProvider 0).1)).1)).1 = 3 :=
  ⟨rfl, rfl, rfl, rfl, rfl, rfl⟩

/-- C6: when the fetch rejects with error `e`, each facade operation fails
with the very same error and state, unmodified; the fake file system rejects
with a message carrying the missing path. -/
theorem facade_propagates_failure (σ : Type) (p : NumberProvider σ)
    (s s2 : σ) (e : String) (h : p.readNumbers s = (s2, Except.error e)) :
    computeMeanOfFile p s = (s2, Except.error e) ∧
    computeMedianOfFile p s = (s2, Except.error e) ∧
    computeModeOfFile p s = (s2, Except.error e) ∧
    (∀ st : FakeFS, getVal st.fileSystem st.currentPath = none →
      computeMeanOfFile fakeFSProvider st =
        (st, Except.error ("File not found: " ++ st.currentPath))) := by
  refine ⟨?_, ?_, ?_, ?_⟩
  · simp [computeMeanOfFile, h, Except.map]
  · simp [computeMedianOfFile, h, Except.map]
  · simp [computeModeOfFile, h, Except.map]
  · intro st hst
    simp [computeMeanOfFile, fakeFSProvider, FakeFS.readNumbers, hst, Except.map]

/-- C6 witness: the test scenario of fetching from the non-existent path
"/non/existent/file.txt" on a fresh fake file system. -/
theorem facade_propagates_failure_witness :
    fakeFSProvider.readNumbers
        (freshFakeFS.setCurrentPath "/non/existent/file.txt") =
      (freshFakeFS.setCurrentPath "/non/existent/file.txt",
        Except.error "File not found: /non/existent/file.txt") ∧
    computeMeanOfFile fakeFSProvider
        (freshFakeFS.setCurrentPath "/non/existent/file.txt") =
      (freshFakeFS.setCurrentPath "/non/existent/file.txt",
        Except.error "File not found: /non/existent/file.txt") :=
  ⟨rfl,
    (facade_propagates_failure FakeFS fakeFSProvider _ _
      "File not found: /non/existent/file.txt" rfl).1⟩

/-- C8: the median is invariant under any permutation of its input. -/
theorem median_perm_invariant (xs ys : List ℚ) (hp : xs.Perm ys) :
    median xs = median ys := by
  have h : sortAsc xs = sortAsc ys :=
    sortAsc_eq_of_sorted_perm xs (sortAsc ys)
      ((List.perm_insertionSort _ ys).trans hp.symm)
      (List.sorted_insertionSort _ ys)
  simp only [median, h]

/-- C8 witness: the test scenario [1, 3, 2, 5, 4], a permutation of
[1, 2, 3, 4, 5]. -/
theorem median_perm_invariant_witness :
    ([(1 : ℚ), 3, 2, 5, 4]).Perm [(1 : ℚ), 2, 3, 4, 5] ∧
    median [(1 : ℚ), 3, 2, 5, 4] = median [(1 : ℚ), 2, 3, 4, 5] :=
  ⟨by decide, median_perm_invariant [1, 3, 2, 5, 4] [1, 2, 3, 4, 5] (by decide)⟩

/-- C9: `MockNumberProvider.verify` throws exactly when the recorded call
count differs from the expected count fixed at construction, returns
normally when they agree, and never changes the state; `readNumbers`
increments the call counter while leaving the rest of the state intact. -/
theorem mock_verify_spec (st : MockState) :
    (st.verify).1 = st ∧
    ((∃ e, (st.verify).2 = Except.error e) ↔ st.callCount ≠ st.expectedCalls) ∧
    ((st.verify).2 = Except.ok () ↔ st.callCount = st.expectedCalls) ∧
    (MockNumberProvider.readNumbers st).1.callCount = st.callCount + 1 ∧
    (MockNumberProvider.readNumbers st).1.expectedCalls = st.expectedCalls ∧
    (MockNumberProvider.readNumbers st).1.numbers = st.numbers := by
  by_cases h : st.callCount = st.expectedCalls
  · refine ⟨?_, ?_, ?_, rfl, rfl, rfl⟩ <;> simp [MockState.verify, h]
  · refine ⟨?_, ?_, ?_, rfl, rfl, rfl⟩ <;> simp [MockState.verify, h]

/-- C10: a fresh fake file system has the empty current path, which is not a
stored key, so its fetch rejects with "File not found: "; in general the
fetch never changes the state, resolves with the stored numbers exactly when
the current path is a key of the map (in particular after `setCurrentPath`
to a stored path), and rejects with a message naming the current path
otherwise. -/
theorem fakeFS_read_spec (st : FakeFS) :
    freshFakeFS.currentPath = "" ∧
    getVal freshFakeFS.fileSystem "" = none ∧
    FakeFS.readNumbers freshFakeFS =
      (freshFakeFS, Except.error "File not found: ") ∧
    (FakeFS.readNumbers st).1 = st ∧
    (∀ ns, getVal st.fileSystem st.currentPath = some ns →
      FakeFS.readNumbers st = (st, Except.ok ns)) ∧
    (getVal st.fileSystem st.currentPath = none →
      FakeFS.readNumbers st =
        (st, Except.error ("File not found: " ++ st.currentPath))) ∧
    ((∃ ns, (FakeFS.readNumbers st).2 = Except.ok ns) ↔
      (getVal st.fileSystem st.currentPath).isSome = true) ∧
    (∀ path ns, getVal st.fileSystem path = some ns →
      FakeFS.readNumbers (st.setCurrentPath path) =
        (st.setCurrentPath path, Except.ok ns)) := by
  refine ⟨rfl, rfl, rfl, ?_, ?_, ?_, ?_, ?_⟩
  · cases h : getVal st.fileSystem st.currentPath <;>
      simp [FakeFS.readNumbers, h]
  · intro ns h
    simp [FakeFS.readNumbers, h]
  · intro h
    simp [FakeFS.readNumbers, h]
  · cases h : getVal st.fileSystem st.currentPath <;>
      simp [FakeFS.readNumbers, h]
  · intro path ns h
    simp [FakeFS.readNumbers, FakeFS.setCurrentPath, h]

/-- C7 counterexample: `ConfigurableStubNumberProvider` returns its internal
array without copying, so with stub state referencing the array at address 0
holding [1, 2, 3], mutating the array returned by the first fetch to [9]
makes the second fetch return [9] and changes the internal array: the
claimed no-aliasing contract fails for this implementation. -/
theorem configurableStub_alias_counterexample :
    Heap.readRef [[1, 2, 3]] (configurableStubFetch 0 [[1, 2, 3]]).2 = [1, 2, 3] ∧
    Heap.readRef
        (Heap.writeRef [[1, 2, 3]] (configurableStubFetch 0 [[1, 2, 3]]).2 [9])
        (configurableStubFetch 0
          (Heap.writeRef [[1, 2, 3]] (configurableStubFetch 0 [[1, 2, 3]]).2 [9])).2
      = [9] ∧
    Heap.readRef
        (Heap.writeRef [[1, 2, 3]] (configurableStubFetch 0 [[1, 2, 3]]).2 [9]) 0
      ≠ Heap.readRef [[1, 2, 3]] 0 := by
  decide

theorem readRef_alloc (h : Heap) (v : List ℚ) :
    Heap.readRef (h ++ [v]) h.length = v := by
  induction h with
  | nil => rfl
  | cons a t ih =>
      simp only [Heap.readRef] at ih ⊢
      simp only [List.cons_append, List.length_cons, List.getD_cons_succ]
      exact ih

theorem readRef_append_lt (h : Heap) (v : List ℚ) (r : ℕ) (hr : r < h.length) :
    Heap.readRef (h ++ [v]) r = Heap.readRef h r := by
  induction h generalizing r with
  | nil => cases hr
  | cons a t ih =>
      cases r with
      | zero => rfl
      | succ r =>
          have : r < t.length := Nat.lt_of_succ_lt_succ hr
          simpa [Heap.readRef] using ih r this

theorem readRef_write_ne (h : Heap) (i j : ℕ) (v : List ℚ) (hij : i ≠ j) :
    Heap.readRef (Heap.writeRef h i v) j = Heap.readRef h j := by
  induction h generalizing i j with
  | nil => rfl
  | cons a t ih =>
      cases i with
      | zero =>
          cases j with
          | zero => exact absurd rfl hij
          | succ j => rfl
      | succ i =>
          cases j with
          | zero => rfl
          | succ j =>
              simpa [Heap.readRef, Heap.writeRef] using
                ih i j (fun he => hij (by rw [he]))

/-- C7 amended: the copying fetch pattern used by the fake file system and
the other copying doubles satisfies the no-aliasing contract: the returned
reference is distinct from the internal one, holds the same values, and
mutating it changes neither the internal array nor what a subsequent fetch
returns. -/
theorem copyingFetch_no_alias (h : Heap) (r : ℕ) (v : List ℚ)
    (hr : r < h.length) :
    (copyingFetch r h).2 ≠ r ∧
    Heap.readRef (copyingFetch r h).1 (copyingFetch r h).2 = Heap.readRef h r ∧
    Heap.readRef
        (Heap.writeRef (copyingFetch r h).1 (copyingFetch r h).2 v) r
      = Heap.readRef h r ∧
    Heap.readRef
        (copyingFetch r
          (Heap.writeRef (copyingFetch r h).1 (copyingFetch r h).2 v)).1
        (copyingFetch r
          (Heap.writeRef (copyingFetch r h).1 (copyingFetch r h).2 v)).2
      = Heap.readRef h r := by
  have hne : h.length ≠ r := Nat.ne_of_gt hr
  have h2 : Heap.readRef (Heap.writeRef (h ++ [Heap.readRef h r]) h.length v) r
      = Heap.readRef h r := by
    rw [readRef_write_ne _ _ _ _ hne, readRef_append_lt h _ r hr]
  refine ⟨hne, readRef_alloc h _, h2, ?_⟩
  have hlen : r < (Heap.writeRef (h ++ [Heap.readRef h r]) h.length v).length := by
    simp [Heap.writeRef]
    omega
  calc Heap.readRef
        (copyingFetch r (Heap.writeRef (h ++ [Heap.readRef h r]) h.length v)).1
        (copyingFetch r (Heap.writeRef (h ++ [Heap.readRef h r]) h.length v)).2
      = Heap.readRef (Heap.writeRef (h ++ [Heap.readRef h r]) h.length v) r :=
        readRef_alloc _ _
    _ = Heap.readRef h r := h2

/-- C7 amended witness: a one-array heap holding [1, 2] at address 0,
mutated to [5]. -/
theorem copyingFetch_no_alias_witness :
    (0 < ([[1, 2]] : Heap).length) ∧
    ((copyingFetch 0 [[1, 2]]).2 ≠ 0 ∧
      Heap.readRef (copyingFetch 0 [[1, 2]]).1 (copyingFetch 0 [[1, 2]]).2
        = Heap.readRef [[1, 2]] 0 ∧
      Heap.readRef
          (Heap.writeRef (copyingFetch 0 [[1, 2]]).1 (copyingFetch 0 [[1, 2]]).2 [5]) 0
        = Heap.readRef [[1, 2]] 0 ∧
      Heap.readRef
          (copyingFetch 0
            (Heap.writeRef (copyingFetch 0 [[1, 2]]).1 (copyingFetch 0 [[1, 2]]).2 [5])).1
          (copyingFetch 0
            (Heap.writeRef (copyingFetch 0 [[1, 2]]).1 (copyingFetch 0 [[1, 2]]).2 [5])).2
        = Heap.readRef [[1, 2]] 0) :=
  ⟨by decide, copyingFetch_no_alias [[1, 2]] 0 [5] (by decide)⟩

example : mean [1, 2, 3, 4, 5] = some 3 := by norm_num [mean]
example : median [7, 34, 2] = some 7 := by
  norm_num [median, sortAsc, List.insertionSort, List.orderedInsert]
example : median [10, 15, 20, 25, 30] = some 20 := by
  norm_num [median, sortAsc, List.insertionSort, List.orderedInsert]
example : mode [1, 1, 2, 2, 2, 3] = [2] := by decide
example : mode [1, 1, 2, 2, 3] = [1, 2] := by decide
example : mode [1, 2, 3, 4, 5] = [1, 2, 3, 4, 5] := by decide
example : mode [2, 2, 3, 3, 3, 1] = [3] := by decide
